import Mathlib

/-!
Verification of the chinshare signaling server (`src/Server/index.ts`).

The server keeps two pieces of mutable state: `rooms`, a `Map` from 6-digit
room codes to rooms, and `sessionData`, a map from raw sockets to per-ws
session info.  Both JS `Map`s are modelled as insertion-ordered association
lists.  `handleMessage` and `handleClose` are translated as pure step
functions from a `ServerState` and an event to a new state plus the ordered
list of outbound sends; randomness (`Math.random`) is passed in as explicit
parameters, and the `create-room` retry loop is bounded by explicit fuel.
-/

namespace ChinShare

/-- JS `Map.get`: the binding for the key, if any. -/
def mapGet {α β : Type} [DecidableEq α] (k : α) : List (α × β) → Option β
  | [] => none
  | (k2, v) :: rest => if k2 = k then some v else mapGet k rest

/-- JS `Map.set`: replace in place (keeping insertion order) or append. -/
def mapSet {α β : Type} [DecidableEq α] (k : α) (v : β) : List (α × β) → List (α × β)
  | [] => [(k, v)]
  | (k2, v2) :: rest => if k2 = k then (k, v) :: rest else (k2, v2) :: mapSet k v rest

/-- JS `Map.delete`: remove the binding for the key. -/
def mapDelete {α β : Type} [DecidableEq α] (k : α) : List (α × β) → List (α × β)
  | [] => []
  | (k2, v2) :: rest => if k2 = k then mapDelete k rest else (k2, v2) :: mapDelete k rest

/-- JS `Map.has`. -/
def mapHas {α β : Type} [DecidableEq α] (k : α) (m : List (α × β)) : Bool :=
  (mapGet k m).isSome

/-- Connections are identified by their raw socket, modelled as a number. -/
abbrev ConnId := Nat

/-- `Room` from `src/Server/index.ts`: the broadcaster's connection and the
insertion-ordered `viewers` map from viewer id to that viewer's connection. -/
structure Room where
  broadcaster : ConnId
  viewers : List (String × ConnId)
deriving DecidableEq

/-- One `sessionData` entry: role, room code, and (for viewers) viewer id. -/
structure Session where
  role : String
  roomId : String
  id : Option String
deriving DecidableEq

/-- The server's mutable state: the room registry and the session table. -/
structure ServerState where
  rooms : List (String × Room)
  sessions : List (ConnId × Session)
deriving DecidableEq

/-- Decoded inbound messages.  `Option` fields model JSON fields that may be
absent (`undefined` in JS); `other` is any frame whose `type` matches no
`switch` case. -/
inductive ClientMsg where
  | createRoom : ClientMsg
  | joinRoom (roomId : Option String) : ClientMsg
  | offer (toId sdp : Option String) : ClientMsg
  | answer (toId sdp : Option String) : ClientMsg
  | candidate (toId cand : Option String) : ClientMsg
  | other : ClientMsg
deriving DecidableEq

/-- Server-originated messages; `forwarded` relays an inbound message
verbatim (the whole decoded frame, unmodified). -/
inductive ServerMsg where
  | roomCreated (roomId : String) : ServerMsg
  | joinedRoom (roomId viewerId : String) : ServerMsg
  | errorMsg (message : String) : ServerMsg
  | viewerConnect (id : String) : ServerMsg
  | viewerDisconnect (id : String) : ServerMsg
  | roomClosed : ServerMsg
  | forwarded (m : ClientMsg) : ServerMsg
deriving DecidableEq

/-- `generateRoomId`: `Math.floor(100000 + Math.random() * 900000).toString()`.
The random draw is a natural `r`; `r % 900000` models the floored value of
`Math.random() * 900000`, which lies in `[0, 899999]`. -/
def generateRoomId (r : Nat) : String :=
  Nat.repr (100000 + r % 900000)

/-- The `create-room` retry loop (`while (rooms.has(roomId)) roomId =
generateRoomId()`): draw candidates `rand i, rand (i+1), ...` until one is
not an active room key.  `fuel` bounds the number of draws; `none` models
the loop not terminating within that many draws. -/
def genFresh (rand : Nat → Nat) (rooms : List (String × Room)) : Nat → Nat → Option String
  | _, 0 => none
  | i, fuel + 1 =>
    if mapHas (generateRoomId (rand i)) rooms then genFresh rand rooms (i + 1) fuel
    else some (generateRoomId (rand i))

/-- Number of occurrences of one outbound send in an output list. -/
def countMsg (x : ConnId × ServerMsg) : List (ConnId × ServerMsg) → Nat
  | [] => 0
  | y :: l => (if y = x then 1 else 0) + countMsg x l

/-- One step of `handleMessage` from `src/Server/index.ts`.

`isOpen c` models `c.raw.readyState === 1`; `rand` supplies this event's
room-code draws, `fuel` bounds the retry loop, and `vtok` is the token
`Math.random().toString(36).substr(2, 9)` drawn if this event is a
`join-room`.  The inbound frame is `none` when `JSON.parse` throws (the
`catch` branch logs and does nothing).  The result is `none` only when the
room-code loop exhausts its fuel; otherwise it is the new state plus the
ordered list of sends `(destination connection, message)`. -/
def handleMessage (isOpen : ConnId → Bool) (rand : Nat → Nat) (fuel : Nat)
    (vtok : String) (st : ServerState) (ws : ConnId) (msg : Option ClientMsg) :
    Option (ServerState × List (ConnId × ServerMsg)) :=
  match msg with
  | none => some (st, [])
  | some ClientMsg.createRoom =>
    match genFresh rand st.rooms 0 fuel with
    | none => none
    | some roomId =>
      some (⟨mapSet roomId ⟨ws, []⟩ st.rooms,
             mapSet ws ⟨"broadcaster", roomId, none⟩ st.sessions⟩,
            [(ws, ServerMsg.roomCreated roomId)])
  | some (ClientMsg.joinRoom rid) =>
    match rid with
    | none => some (st, [(ws, ServerMsg.errorMsg "Room not found")])
    | some r =>
      match mapGet r st.rooms with
      | none => some (st, [(ws, ServerMsg.errorMsg "Room not found")])
      | some room =>
        some (⟨mapSet r ⟨room.broadcaster, mapSet vtok ws room.viewers⟩ st.rooms,
               mapSet ws ⟨"viewer", r, some vtok⟩ st.sessions⟩,
              (ws, ServerMsg.joinedRoom r vtok) ::
              (if isOpen room.broadcaster then
                 [(room.broadcaster, ServerMsg.viewerConnect vtok)]
               else []))
  | some (ClientMsg.offer toId sdp) =>
    match mapGet ws st.sessions with
    | none => some (st, [])
    | some s =>
      if s.roomId = "" then some (st, [])
      else
        match mapGet s.roomId st.rooms with
        | none => some (st, [])
        | some room =>
          match toId with
          | none => some (st, [])
          | some t =>
            if t = "" then some (st, [])
            else
              match mapGet t room.viewers with
              | none => some (st, [])
              | some vc =>
                some (st, [(vc, ServerMsg.forwarded (ClientMsg.offer toId sdp))])
  | some (ClientMsg.answer toId sdp) =>
    match mapGet ws st.sessions with
    | none => some (st, [])
    | some s =>
      if s.roomId = "" then some (st, [])
      else
        match mapGet s.roomId st.rooms with
        | none => some (st, [])
        | some room =>
          if s.role = "viewer" then
            some (st, [(room.broadcaster, ServerMsg.forwarded (ClientMsg.answer toId sdp))])
          else if s.role = "broadcaster" then
            match toId with
            | none => some (st, [])
            | some t =>
              if t = "" then some (st, [])
              else
                match mapGet t room.viewers with
                | none => some (st, [])
                | some vc =>
                  some (st, [(vc, ServerMsg.forwarded (ClientMsg.answer toId sdp))])
          else some (st, [])
  | some (ClientMsg.candidate toId cand) =>
    match mapGet ws st.sessions with
    | none => some (st, [])
    | some s =>
      if s.roomId = "" then some (st, [])
      else
        match mapGet s.roomId st.rooms with
        | none => some (st, [])
        | some room =>
          if s.role = "broadcaster" then
            match toId with
            | none => some (st, [])
            | some t =>
              if t = "" then some (st, [])
              else
                match mapGet t room.viewers with
                | none => some (st, [])
                | some vc =>
                  some (st, [(vc, ServerMsg.forwarded (ClientMsg.candidate toId cand))])
          else
            some (st, [(room.broadcaster, ServerMsg.forwarded (ClientMsg.candidate toId cand))])
  | some ClientMsg.other => some (st, [])

/-- `handleClose` from `src/Server/index.ts`: delete the session, then
destroy the room (broadcaster) or remove the viewer entry (viewer), sending
`room-closed` to every still-open viewer resp. `viewer-disconnect` to a
still-open broadcaster. -/
def handleClose (isOpen : ConnId → Bool) (st : ServerState) (ws : ConnId) :
    ServerState × List (ConnId × ServerMsg) :=
  match mapGet ws st.sessions with
  | none => (st, [])
  | some s =>
    if s.roomId = "" then (⟨st.rooms, mapDelete ws st.sessions⟩, [])
    else
      match mapGet s.roomId st.rooms with
      | none => (⟨st.rooms, mapDelete ws st.sessions⟩, [])
      | some room =>
        if s.role = "broadcaster" then
          (⟨mapDelete s.roomId st.rooms, mapDelete ws st.sessions⟩,
           (room.viewers.filter (fun p => isOpen p.2)).map
             (fun p => (p.2, ServerMsg.roomClosed)))
        else
          match s.id with
          | none => (⟨st.rooms, mapDelete ws st.sessions⟩, [])
          | some vid =>
            if vid = "" then (⟨st.rooms, mapDelete ws st.sessions⟩, [])
            else if mapHas vid room.viewers then
              (⟨mapSet s.roomId ⟨room.broadcaster, mapDelete vid room.viewers⟩ st.rooms,
                mapDelete ws st.sessions⟩,
               if isOpen room.broadcaster then
                 [(room.broadcaster, ServerMsg.viewerDisconnect vid)]
               else [])
            else (⟨st.rooms, mapDelete ws st.sessions⟩, [])

end ChinShare

namespace ChinShare

theorem mapGet_set_self {α β : Type} [DecidableEq α] (k : α) (v : β) (m : List (α × β)) :
    mapGet k (mapSet k v m) = some v := by
  induction m with
  | nil => simp [mapGet, mapSet]
  | cons p rest ih =>
    obtain ⟨k2, v2⟩ := p
    by_cases h : k2 = k <;> simp [mapGet, mapSet, h, ih]

theorem mapGet_set_ne {α β : Type} [DecidableEq α] (k k2 : α) (v : β) (m : List (α × β))
    (h : k2 ≠ k) : mapGet k2 (mapSet k v m) = mapGet k2 m := by
  induction m with
  | nil => simp [mapGet, mapSet, Ne.symm h]
  | cons p rest ih =>
    obtain ⟨k3, v3⟩ := p
    by_cases h3 : k3 = k
    · subst h3; simp [mapGet, mapSet, Ne.symm h]
    · by_cases h4 : k3 = k2 <;> simp [mapGet, mapSet, h3, h4, h, ih]

theorem mapGet_delete_self {α β : Type} [DecidableEq α] (k : α) (m : List (α × β)) :
    mapGet k (mapDelete k m) = none := by
  induction m with
  | nil => simp [mapGet, mapDelete]
  | cons p rest ih =>
    obtain ⟨k2, v2⟩ := p
    by_cases h : k2 = k <;> simp [mapGet, mapDelete, h, ih]

theorem mapGet_delete_ne {α β : Type} [DecidableEq α] (k k2 : α) (m : List (α × β))
    (h : k2 ≠ k) : mapGet k2 (mapDelete k m) = mapGet k2 m := by
  induction m with
  | nil => simp [mapDelete]
  | cons p rest ih =>
    obtain ⟨k3, v3⟩ := p
    by_cases h3 : k3 = k
    · subst h3; simp [mapGet, mapDelete, Ne.symm h, ih]
    · by_cases h4 : k3 = k2 <;> simp [mapGet, mapDelete, h3, h4, h, ih]

theorem mapHas_false_iff {α β : Type} [DecidableEq α] (k : α) (m : List (α × β)) :
    mapHas k m = false ↔ mapGet k m = none := by
  unfold mapHas
  cases mapGet k m <;> simp

theorem genFresh_sound (rand : Nat → Nat) (rooms : List (String × Room)) :
    ∀ fuel i c, genFresh rand rooms i fuel = some c →
      mapHas c rooms = false ∧ ∃ r, c = generateRoomId r := by
  intro fuel
  induction fuel with
  | zero => intro i c h; simp [genFresh] at h
  | succ n ih =>
    intro i c h
    rw [genFresh] at h
    split at h
    · exact ih (i + 1) c h
    · rename_i hnot
      cases h
      exact ⟨by simpa using hnot, rand i, rfl⟩

theorem digits_len_of_range (m : Nat) (h1 : 100000 ≤ m) (h2 : m ≤ 999999) :
    (Nat.digits 10 m).length = 6 := by
  have hlog : Nat.log 10 m = 5 :=
    Nat.log_eq_of_pow_le_of_lt_pow (by norm_num; omega) (by norm_num; omega)
  rw [Nat.digits_len 10 m (by norm_num) (by omega), hlog]

/-- C1: every successful `create-room` replies `room-created` to the sender
alone, its code is the decimal representation of a number in
[100000, 999999] (hence a 6-digit string), the code is not the key of any
room active when the request arrived, and the resulting state has a room
under that code with the sender as broadcaster and an empty viewer map,
plus the sender's session bound as broadcaster of that room. -/
theorem createRoom_spec (isOpen : ConnId → Bool) (rand : Nat → Nat) (fuel : Nat)
    (vtok : String) (st st2 : ServerState) (ws : ConnId) (out : List (ConnId × ServerMsg))
    (h : handleMessage isOpen rand fuel vtok st ws (some ClientMsg.createRoom) =
      some (st2, out)) :
    ∃ code m,
      code = Nat.repr m ∧ 100000 ≤ m ∧ m ≤ 999999 ∧
      (Nat.digits 10 m).length = 6 ∧
      mapHas code st.rooms = false ∧
      mapGet code st2.rooms = some ⟨ws, []⟩ ∧
      st2.sessions = mapSet ws ⟨"broadcaster", code, none⟩ st.sessions ∧
      out = [(ws, ServerMsg.roomCreated code)] := by
  rw [handleMessage] at h
  cases hg : genFresh rand st.rooms 0 fuel with
  | none => rw [hg] at h; exact absurd h (by simp)
  | some code =>
    rw [hg] at h
    obtain ⟨hfresh, r, hcode⟩ := genFresh_sound rand st.rooms fuel 0 code hg
    injection h with h
    injection h with hst hout
    subst hst hout
    refine ⟨code, 100000 + r % 900000, ?_, ?_, ?_, ?_, hfresh, ?_, rfl, rfl⟩
    · simpa [generateRoomId] using hcode
    · omega
    · have : r % 900000 < 900000 := Nat.mod_lt r (by norm_num)
      omega
    · exact digits_len_of_range _ (by omega)
        (by have : r % 900000 < 900000 := Nat.mod_lt r (by norm_num); omega)
    · exact mapGet_set_self code ⟨ws, []⟩ st.rooms

/-- C1 witness: a concrete successful `create-room` on the empty state. -/
theorem createRoom_spec_witness :
    ∃ code m,
      code = Nat.repr m ∧ 100000 ≤ m ∧ m ≤ 999999 ∧
      (Nat.digits 10 m).length = 6 ∧
      mapHas code (ServerState.mk [] []).rooms = false ∧
      mapGet code (ServerState.mk [("100000", ⟨0, []⟩)]
        [(0, ⟨"broadcaster", "100000", none⟩)]).rooms = some ⟨0, []⟩ ∧
      (ServerState.mk [("100000", ⟨0, []⟩)] [(0, ⟨"broadcaster", "100000", none⟩)]).sessions =
        mapSet 0 ⟨"broadcaster", code, none⟩ (ServerState.mk [] []).sessions ∧
      [((0 : ConnId), ServerMsg.roomCreated "100000")] =
        [(0, ServerMsg.roomCreated code)] :=
  createRoom_spec (fun _ => true) (fun _ => 0) 1 "" ⟨[], []⟩
    ⟨[("100000", ⟨0, []⟩)], [(0, ⟨"broadcaster", "100000", none⟩)]⟩ 0
    [(0, ServerMsg.roomCreated "100000")] (by rfl)

end ChinShare

namespace ChinShare

/-- C5: a `join-room` whose `roomId` names no active room (or is absent)
sends exactly one `error` to the sender and nothing to anyone else, and the
state — registry and session table — is returned unchanged. -/
theorem joinRoom_missing_spec (isOpen : ConnId → Bool) (rand : Nat → Nat) (fuel : Nat)
    (vtok : String) (st : ServerState) (ws : ConnId) (rid : Option String)
    (h : rid.bind (fun r => mapGet r st.rooms) = none) :
    handleMessage isOpen rand fuel vtok st ws (some (ClientMsg.joinRoom rid)) =
      some (st, [(ws, ServerMsg.errorMsg "Room not found")]) := by
  cases rid with
  | none => rfl
  | some r =>
    have h2 : mapGet r st.rooms = none := by simpa using h
    simp only [handleMessage, h2]

/-- C5 witness: joining the nonexistent room "000000" on the empty state. -/
theorem joinRoom_missing_spec_witness :
    handleMessage (fun _ => true) (fun _ => 0) 1 "" ⟨[], []⟩ 3
        (some (ClientMsg.joinRoom (some "000000"))) =
      some (⟨[], []⟩, [(3, ServerMsg.errorMsg "Room not found")]) :=
  joinRoom_missing_spec (fun _ => true) (fun _ => 0) 1 "" ⟨[], []⟩ 3 (some "000000") (by rfl)

/-- C10: closing a connection that has no bound session mutates nothing and
sends nothing. -/
theorem close_unbound_noop (isOpen : ConnId → Bool) (st : ServerState) (ws : ConnId)
    (h : mapGet ws st.sessions = none) :
    handleClose isOpen st ws = (st, []) := by
  rw [handleClose, h]

/-- C10 witness: closing the never-bound connection 5. -/
theorem close_unbound_noop_witness :
    handleClose (fun _ => true)
        ⟨[("100000", ⟨0, []⟩)], [(0, ⟨"broadcaster", "100000", none⟩)]⟩ 5 =
      (⟨[("100000", ⟨0, []⟩)], [(0, ⟨"broadcaster", "100000", none⟩)]⟩, []) :=
  close_unbound_noop (fun _ => true)
    ⟨[("100000", ⟨0, []⟩)], [(0, ⟨"broadcaster", "100000", none⟩)]⟩ 5 (by rfl)

/-- C9 counterexample: a `join-room` frame missing its required `roomId`
field is not silently discarded — the handler replies `error` to the sender
(the frame never reaches the catch branch). -/
theorem joinRoom_missing_field_replies :
    handleMessage (fun _ => true) (fun _ => 0) 1 "" ⟨[], []⟩ 7
        (some (ClientMsg.joinRoom none)) =
      some (⟨[], []⟩, [(7, ServerMsg.errorMsg "Room not found")]) ∧
    [((7 : ConnId), ServerMsg.errorMsg "Room not found")] ≠ ([] : List (ConnId × ServerMsg)) :=
  ⟨rfl, by simp⟩

/-- C9 amended: a frame on which `JSON.parse` throws is caught and discarded
with no reply and no state change; a JSON frame missing a required field
never crashes the handler and never mutates the registry or session table,
but it is not always silent: `join-room` without `roomId` draws an `error`
reply, while e.g. an `offer` without `to` is silently dropped. -/
theorem malformed_frame_spec (isOpen : ConnId → Bool) (rand : Nat → Nat) (fuel : Nat)
    (vtok : String) (st : ServerState) (ws : ConnId) :
    handleMessage isOpen rand fuel vtok st ws none = some (st, []) ∧
    handleMessage isOpen rand fuel vtok st ws (some (ClientMsg.joinRoom none)) =
      some (st, [(ws, ServerMsg.errorMsg "Room not found")]) ∧
    ∀ sdp, handleMessage isOpen rand fuel vtok st ws (some (ClientMsg.offer none sdp)) =
      some (st, []) := by
  refine ⟨rfl, rfl, fun sdp => ?_⟩
  cases hs : mapGet ws st.sessions with
  | none => simp only [handleMessage, hs]
  | some s =>
    by_cases hrid : s.roomId = ""
    · simp [handleMessage, hs, hrid]
    · cases hm : mapGet s.roomId st.rooms with
      | none => simp [handleMessage, hs, hrid, hm]
      | some room => simp [handleMessage, hs, hrid, hm]

/-- C3 counterexample: connection 1 is bound as a viewer (the broadcaster of
room "100000" is connection 0), yet the `offer` it sends naming viewer "v2"
is forwarded to connection 2 — the handler checks only membership of `to` in
the sender's room, never that the sender is the broadcaster. -/
theorem offer_from_viewer_delivered :
    mapGet 1 (ServerState.mk [("100000", ⟨0, [("v1", 1), ("v2", 2)]⟩)]
      [(0, ⟨"broadcaster", "100000", none⟩), (1, ⟨"viewer", "100000", some "v1"⟩),
       (2, ⟨"viewer", "100000", some "v2"⟩)]).sessions =
      some ⟨"viewer", "100000", some "v1"⟩ ∧
    handleMessage (fun _ => true) (fun _ => 0) 1 ""
        (ServerState.mk [("100000", ⟨0, [("v1", 1), ("v2", 2)]⟩)]
          [(0, ⟨"broadcaster", "100000", none⟩), (1, ⟨"viewer", "100000", some "v1"⟩),
           (2, ⟨"viewer", "100000", some "v2"⟩)]) 1
        (some (ClientMsg.offer (some "v2") (some "sdp"))) =
      some (ServerState.mk [("100000", ⟨0, [("v1", 1), ("v2", 2)]⟩)]
          [(0, ⟨"broadcaster", "100000", none⟩), (1, ⟨"viewer", "100000", some "v1"⟩),
           (2, ⟨"viewer", "100000", some "v2"⟩)],
        [(2, ServerMsg.forwarded (ClientMsg.offer (some "v2") (some "sdp")))]) :=
  ⟨rfl, rfl⟩

/-- C3 amended: an `offer` never changes the state and is forwarded verbatim
to at most one connection: it is delivered to connection `c` exactly when the
sender has a bound session whose (nonempty) room code resolves to a room and
that room's `viewers` map sends the frame's (present, nonempty) `to` field to
`c` — regardless of the sender's role; in every other case nothing is sent to
anyone, with no reply to the sender. -/
theorem offer_routing (isOpen : ConnId → Bool) (rand : Nat → Nat) (fuel : Nat)
    (vtok : String) (st : ServerState) (ws : ConnId) (toId sdp : Option String) :
    ∃ out,
      handleMessage isOpen rand fuel vtok st ws (some (ClientMsg.offer toId sdp)) =
        some (st, out) ∧
      (out = [] ∨ ∃ c, out = [(c, ServerMsg.forwarded (ClientMsg.offer toId sdp))]) ∧
      ∀ c msg2, ((c, msg2) ∈ out ↔
        (msg2 = ServerMsg.forwarded (ClientMsg.offer toId sdp) ∧
         ∃ s room t, mapGet ws st.sessions = some s ∧ s.roomId ≠ "" ∧
           mapGet s.roomId st.rooms = some room ∧ toId = some t ∧ t ≠ "" ∧
           mapGet t room.viewers = some c)) := by
  cases hs : mapGet ws st.sessions with
  | none =>
    exact ⟨[], by simp only [handleMessage, hs], Or.inl rfl, by simp [hs]⟩
  | some s =>
    by_cases hrid : s.roomId = ""
    · exact ⟨[], by simp [handleMessage, hs, hrid], Or.inl rfl, by simp [hs, hrid]⟩
    · cases hm : mapGet s.roomId st.rooms with
      | none =>
        exact ⟨[], by simp [handleMessage, hs, hrid, hm], Or.inl rfl, by simp [hs, hrid, hm]⟩
      | some room =>
        cases toId with
        | none =>
          exact ⟨[], by simp [handleMessage, hs, hrid, hm], Or.inl rfl, by simp⟩
        | some t =>
          by_cases ht : t = ""
          · exact ⟨[], by simp [handleMessage, hs, hrid, hm, ht], Or.inl rfl, by simp [ht]⟩
          · cases hv : mapGet t room.viewers with
            | none =>
              exact ⟨[], by simp [handleMessage, hs, hrid, hm, ht, hv], Or.inl rfl,
                by simp [hs, hrid, hm, ht, hv]⟩
            | some vc =>
              refine ⟨[(vc, ServerMsg.forwarded (ClientMsg.offer (some t) sdp))],
                by simp [handleMessage, hs, hrid, hm, ht, hv], Or.inr ⟨vc, rfl⟩, ?_⟩
              intro c msg2
              simp only [List.mem_singleton, Prod.mk.injEq, Option.some.injEq]
              constructor
              · rintro ⟨hc, hmsg⟩
                exact ⟨hmsg, s, room, t, rfl, hrid, hm, rfl, ht, by rw [hv, hc]⟩
              · rintro ⟨hmsg, s2, room2, t2, hs2, _, hm2, ht2, _, hv2⟩
                cases hs2
                cases ht2
                rw [hm] at hm2
                cases hm2
                rw [hv] at hv2
                cases hv2
                exact ⟨rfl, hmsg⟩

end ChinShare

namespace ChinShare

/-- Helper: an `answer` frame never changes the server state. -/
theorem answer_preserves_state (isOpen : ConnId → Bool) (rand : Nat → Nat) (fuel : Nat)
    (vtok : String) (st : ServerState) (ws : ConnId) (toId sdp : Option String) :
    ∃ out, handleMessage isOpen rand fuel vtok st ws (some (ClientMsg.answer toId sdp)) =
      some (st, out) := by
  cases hs : mapGet ws st.sessions with
  | none => exact ⟨[], by simp only [handleMessage, hs]⟩
  | some s =>
    by_cases hrid : s.roomId = ""
    · exact ⟨[], by simp [handleMessage, hs, hrid]⟩
    · cases hm : mapGet s.roomId st.rooms with
      | none => exact ⟨[], by simp [handleMessage, hs, hrid, hm]⟩
      | some room =>
        by_cases hrole : s.role = "viewer"
        · exact ⟨[(room.broadcaster, ServerMsg.forwarded (ClientMsg.answer toId sdp))],
            by simp [handleMessage, hs, hrid, hm, hrole]⟩
        · by_cases hrole2 : s.role = "broadcaster"
          · cases toId with
            | none => exact ⟨[], by simp [handleMessage, hs, hrid, hm, hrole, hrole2]⟩
            | some t =>
              by_cases ht : t = ""
              · exact ⟨[], by simp [handleMessage, hs, hrid, hm, hrole, hrole2, ht]⟩
              · cases hv : mapGet t room.viewers with
                | none =>
                  exact ⟨[], by simp [handleMessage, hs, hrid, hm, hrole, hrole2, ht, hv]⟩
                | some vc =>
                  exact ⟨[(vc, ServerMsg.forwarded (ClientMsg.answer (some t) sdp))],
                    by simp [handleMessage, hs, hrid, hm, hrole, hrole2, ht, hv]⟩
          · exact ⟨[], by simp [handleMessage, hs, hrid, hm, hrole, hrole2]⟩

/-- Helper: a `candidate` frame never changes the server state. -/
theorem candidate_preserves_state (isOpen : ConnId → Bool) (rand : Nat → Nat) (fuel : Nat)
    (vtok : String) (st : ServerState) (ws : ConnId) (toId cand : Option String) :
    ∃ out, handleMessage isOpen rand fuel vtok st ws (some (ClientMsg.candidate toId cand)) =
      some (st, out) := by
  cases hs : mapGet ws st.sessions with
  | none => exact ⟨[], by simp only [handleMessage, hs]⟩
  | some s =>
    by_cases hrid : s.roomId = ""
    · exact ⟨[], by simp [handleMessage, hs, hrid]⟩
    · cases hm : mapGet s.roomId st.rooms with
      | none => exact ⟨[], by simp [handleMessage, hs, hrid, hm]⟩
      | some room =>
        by_cases hrole : s.role = "broadcaster"
        · cases toId with
          | none => exact ⟨[], by simp [handleMessage, hs, hrid, hm, hrole]⟩
          | some t =>
            by_cases ht : t = ""
            · exact ⟨[], by simp [handleMessage, hs, hrid, hm, hrole, ht]⟩
            · cases hv : mapGet t room.viewers with
              | none => exact ⟨[], by simp [handleMessage, hs, hrid, hm, hrole, ht, hv]⟩
              | some vc =>
                exact ⟨[(vc, ServerMsg.forwarded (ClientMsg.candidate (some t) cand))],
                  by simp [handleMessage, hs, hrid, hm, hrole, ht, hv]⟩
        · exact ⟨[(room.broadcaster, ServerMsg.forwarded (ClientMsg.candidate toId cand))],
            by simp [handleMessage, hs, hrid, hm, hrole]⟩

/-- Helper: an `offer` frame never changes the server state. -/
theorem offer_preserves_state (isOpen : ConnId → Bool) (rand : Nat → Nat) (fuel : Nat)
    (vtok : String) (st : ServerState) (ws : ConnId) (toId sdp : Option String) :
    ∃ out, handleMessage isOpen rand fuel vtok st ws (some (ClientMsg.offer toId sdp)) =
      some (st, out) := by
  cases hs : mapGet ws st.sessions with
  | none => exact ⟨[], by simp only [handleMessage, hs]⟩
  | some s =>
    by_cases hrid : s.roomId = ""
    · exact ⟨[], by simp [handleMessage, hs, hrid]⟩
    · cases hm : mapGet s.roomId st.rooms with
      | none => exact ⟨[], by simp [handleMessage, hs, hrid, hm]⟩
      | some room =>
        cases toId with
        | none => exact ⟨[], by simp [handleMessage, hs, hrid, hm]⟩
        | some t =>
          by_cases ht : t = ""
          · exact ⟨[], by simp [handleMessage, hs, hrid, hm, ht]⟩
          · cases hv : mapGet t room.viewers with
            | none => exact ⟨[], by simp [handleMessage, hs, hrid, hm, ht, hv]⟩
            | some vc =>
              exact ⟨[(vc, ServerMsg.forwarded (ClientMsg.offer (some t) sdp))],
                by simp [handleMessage, hs, hrid, hm, ht, hv]⟩

/-- Helper: `handleClose` touches no session entry other than the closing
connection's own. -/
theorem handleClose_other_sessions (isOpen : ConnId → Bool) (st : ServerState)
    (ws ws2 : ConnId) (h : ws ≠ ws2) :
    mapGet ws ((handleClose isOpen st ws2).1).sessions = mapGet ws st.sessions := by
  rw [handleClose]
  cases hs : mapGet ws2 st.sessions with
  | none => rfl
  | some s =>
    by_cases hrid : s.roomId = ""
    · simp only [hrid, if_true, eq_self_iff_true]
      exact mapGet_delete_ne ws2 ws st.sessions h
    · simp only [hrid, if_false]
      cases hm : mapGet s.roomId st.rooms with
      | none => exact mapGet_delete_ne ws2 ws st.sessions h
      | some room =>
        by_cases hrole : s.role = "broadcaster"
        · simp only [hrole, if_true]
          exact mapGet_delete_ne ws2 ws st.sessions h
        · simp only [hrole, if_false]
          cases hid : s.id with
          | none => exact mapGet_delete_ne ws2 ws st.sessions h
          | some vid =>
            by_cases hv : vid = ""
            · simp only [hv, if_true]
              exact mapGet_delete_ne ws2 ws st.sessions h
            · by_cases hhas : mapHas vid room.viewers
              · simp only [hv, hhas, if_false, if_true]
                exact mapGet_delete_ne ws2 ws st.sessions h
              · simp only [hv, hhas, if_false]
                exact mapGet_delete_ne ws2 ws st.sessions h

/-- C4: a `join-room` naming an existing room registers the sender in that
room's viewer map under the freshly drawn token, binds the sender's session
with role viewer, and emits first `joined-room{roomId, viewerId}` to the
sender and then `viewer-connect{id}` to the room's broadcaster exactly when
the broadcaster's connection is currently open — in that order. -/
theorem joinRoom_success_spec (isOpen : ConnId → Bool) (rand : Nat → Nat) (fuel : Nat)
    (vtok : String) (st : ServerState) (ws : ConnId) (r : String) (room : Room)
    (hr : mapGet r st.rooms = some room) :
    ∃ st2 out,
      handleMessage isOpen rand fuel vtok st ws (some (ClientMsg.joinRoom (some r))) =
        some (st2, out) ∧
      mapGet r st2.rooms = some ⟨room.broadcaster, mapSet vtok ws room.viewers⟩ ∧
      mapGet vtok (mapSet vtok ws room.viewers) = some ws ∧
      mapGet ws st2.sessions = some ⟨"viewer", r, some vtok⟩ ∧
      out = (ws, ServerMsg.joinedRoom r vtok) ::
        (if isOpen room.broadcaster then [(room.broadcaster, ServerMsg.viewerConnect vtok)]
         else []) := by
  refine ⟨⟨mapSet r ⟨room.broadcaster, mapSet vtok ws room.viewers⟩ st.rooms,
           mapSet ws ⟨"viewer", r, some vtok⟩ st.sessions⟩, _,
    by simp only [handleMessage, hr], ?_, ?_, ?_, rfl⟩
  · exact mapGet_set_self r ⟨room.broadcaster, mapSet vtok ws room.viewers⟩ st.rooms
  · exact mapGet_set_self vtok ws room.viewers
  · exact mapGet_set_self ws ⟨"viewer", r, some vtok⟩ st.sessions

/-- C4 witness: connection 1 joins room "100000" (broadcaster 0 open) with
token "tok". -/
theorem joinRoom_success_spec_witness :
    ∃ st2 out,
      handleMessage (fun _ => true) (fun _ => 0) 1 "tok"
          ⟨[("100000", ⟨0, []⟩)], [(0, ⟨"broadcaster", "100000", none⟩)]⟩ 1
          (some (ClientMsg.joinRoom (some "100000"))) =
        some (st2, out) ∧
      mapGet "100000" st2.rooms = some ⟨0, mapSet "tok" 1 []⟩ ∧
      mapGet "tok" (mapSet "tok" 1 []) = some 1 ∧
      mapGet 1 st2.sessions = some ⟨"viewer", "100000", some "tok"⟩ ∧
      out = ((1 : ConnId), ServerMsg.joinedRoom "100000" "tok") ::
        (if (fun _ => true : ConnId → Bool) 0 then [((0 : ConnId), ServerMsg.viewerConnect "tok")]
         else []) :=
  joinRoom_success_spec (fun _ => true) (fun _ => 0) 1 "tok"
    ⟨[("100000", ⟨0, []⟩)], [(0, ⟨"broadcaster", "100000", none⟩)]⟩ 1 "100000" ⟨0, []⟩ (by rfl)

/-- C6 counterexample: connection 0 is already bound as broadcaster of room
"100000", yet a second `create-room` from it creates room "100001" and
re-binds its session to the new room — both the registry and the session
change, since the handler has no already-bound guard. -/
theorem rebind_counterexample :
    handleMessage (fun _ => true) (fun _ => 1) 1 ""
        ⟨[("100000", ⟨0, []⟩)], [(0, ⟨"broadcaster", "100000", none⟩)]⟩ 0
        (some ClientMsg.createRoom) =
      some (⟨[("100000", ⟨0, []⟩), ("100001", ⟨0, []⟩)],
             [(0, ⟨"broadcaster", "100001", none⟩)]⟩,
            [(0, ServerMsg.roomCreated "100001")]) ∧
    (⟨"broadcaster", "100001", none⟩ : Session) ≠ ⟨"broadcaster", "100000", none⟩ :=
  ⟨rfl, by decide⟩

/-- C6 amended: a session entry is written only by `create-room` and
`join-room`: every other inbound frame (including malformed ones) returns the
state unchanged, and a close event of a different connection never touches
this connection's session entry.  The code has no guard against re-binding,
so a later `create-room`/`join-room` from a bound connection does overwrite
its session and mutate the registry. -/
theorem session_stable (isOpen : ConnId → Bool) (rand : Nat → Nat) (fuel : Nat)
    (vtok : String) (st : ServerState) (ws ws2 : ConnId) (msg : Option ClientMsg)
    (h1 : msg ≠ some ClientMsg.createRoom)
    (h2 : ∀ rid, msg ≠ some (ClientMsg.joinRoom rid))
    (h3 : ws ≠ ws2) :
    (∃ out, handleMessage isOpen rand fuel vtok st ws2 msg = some (st, out)) ∧
    mapGet ws ((handleClose isOpen st ws2).1).sessions = mapGet ws st.sessions := by
  refine ⟨?_, handleClose_other_sessions isOpen st ws ws2 h3⟩
  cases msg with
  | none => exact ⟨[], rfl⟩
  | some m =>
    cases m with
    | createRoom => exact absurd rfl h1
    | joinRoom rid => exact absurd rfl (h2 rid)
    | offer toId sdp => exact offer_preserves_state isOpen rand fuel vtok st ws2 toId sdp
    | answer toId sdp => exact answer_preserves_state isOpen rand fuel vtok st ws2 toId sdp
    | candidate toId cand =>
      exact candidate_preserves_state isOpen rand fuel vtok st ws2 toId cand
    | other => exact ⟨[], rfl⟩

/-- C6 witness: an `answer` from connection 1 and a close of connection 1
leave connection 0's binding untouched. -/
theorem session_stable_witness :
    (∃ out, handleMessage (fun _ => true) (fun _ => 0) 1 ""
        ⟨[("100000", ⟨0, []⟩)], [(0, ⟨"broadcaster", "100000", none⟩)]⟩ 1
        (some (ClientMsg.answer none none)) =
      some (⟨[("100000", ⟨0, []⟩)], [(0, ⟨"broadcaster", "100000", none⟩)]⟩, out)) ∧
    mapGet 0 ((handleClose (fun _ => true)
        ⟨[("100000", ⟨0, []⟩)], [(0, ⟨"broadcaster", "100000", none⟩)]⟩ 1).1).sessions =
      mapGet 0 (ServerState.mk [("100000", ⟨0, []⟩)]
        [(0, ⟨"broadcaster", "100000", none⟩)]).sessions :=
  session_stable (fun _ => true) (fun _ => 0) 1 ""
    ⟨[("100000", ⟨0, []⟩)], [(0, ⟨"broadcaster", "100000", none⟩)]⟩ 0 1
    (some (ClientMsg.answer none none)) (by simp) (fun rid => by simp) (by decide)

/-- C7 counterexample: the handler never checks a drawn viewer token for
uniqueness.  If the token "tok" is drawn for both joins, the two accepted
`join-room` operations into room "100000" yield the same viewer identifier,
and the second registration overwrites the first viewer's entry. -/
theorem viewerId_reuse_counterexample :
    handleMessage (fun _ => true) (fun _ => 0) 1 "tok"
        ⟨[("100000", ⟨0, []⟩)], [(0, ⟨"broadcaster", "100000", none⟩)]⟩ 1
        (some (ClientMsg.joinRoom (some "100000"))) =
      some (⟨[("100000", ⟨0, [("tok", 1)]⟩)],
             [(0, ⟨"broadcaster", "100000", none⟩), (1, ⟨"viewer", "100000", some "tok"⟩)]⟩,
            [(1, ServerMsg.joinedRoom "100000" "tok"), (0, ServerMsg.viewerConnect "tok")]) ∧
    handleMessage (fun _ => true) (fun _ => 0) 1 "tok"
        ⟨[("100000", ⟨0, [("tok", 1)]⟩)],
         [(0, ⟨"broadcaster", "100000", none⟩), (1, ⟨"viewer", "100000", some "tok"⟩)]⟩ 2
        (some (ClientMsg.joinRoom (some "100000"))) =
      some (⟨[("100000", ⟨0, [("tok", 2)]⟩)],
             [(0, ⟨"broadcaster", "100000", none⟩), (1, ⟨"viewer", "100000", some "tok"⟩),
              (2, ⟨"viewer", "100000", some "tok"⟩)]⟩,
            [(2, ServerMsg.joinedRoom "100000" "tok"), (0, ServerMsg.viewerConnect "tok")]) ∧
    mapGet "tok" [("tok", (2 : ConnId))] ≠ some 1 :=
  ⟨rfl, rfl, by decide⟩

/-- C7 amended: two successive accepted `join-room`s into the same room yield
distinct viewer identifiers, and both viewers stay registered, provided the
two drawn random tokens differ; the code itself performs no uniqueness check
(a repeated token is reused and overwrites the earlier entry, see the
counterexample). -/
theorem viewerIds_distinct (isOpen1 isOpen2 : ConnId → Bool) (rand1 rand2 : Nat → Nat)
    (fuel1 fuel2 : Nat) (t1 t2 : String) (st0 st1 st2 : ServerState)
    (out1 out2 : List (ConnId × ServerMsg)) (a b : ConnId) (r : String) (room : Room)
    (hne : t1 ≠ t2)
    (h0 : mapGet r st0.rooms = some room)
    (h1 : handleMessage isOpen1 rand1 fuel1 t1 st0 a (some (ClientMsg.joinRoom (some r))) =
      some (st1, out1))
    (h2 : handleMessage isOpen2 rand2 fuel2 t2 st1 b (some (ClientMsg.joinRoom (some r))) =
      some (st2, out2)) :
    ∃ room2, mapGet r st2.rooms = some room2 ∧
      mapGet t1 room2.viewers = some a ∧ mapGet t2 room2.viewers = some b ∧
      (a, ServerMsg.joinedRoom r t1) ∈ out1 ∧ (b, ServerMsg.joinedRoom r t2) ∈ out2 := by
  simp only [handleMessage, h0, Option.some.injEq, Prod.mk.injEq] at h1
  obtain ⟨hst1, hout1⟩ := h1
  subst hst1
  subst hout1
  simp only [handleMessage, mapGet_set_self, Option.some.injEq, Prod.mk.injEq] at h2
  obtain ⟨hst2, hout2⟩ := h2
  subst hst2
  subst hout2
  refine ⟨⟨room.broadcaster, mapSet t2 b (mapSet t1 a room.viewers)⟩,
    mapGet_set_self r _ _, ?_, mapGet_set_self t2 b _,
    List.mem_cons_self _ _, List.mem_cons_self _ _⟩
  rw [mapGet_set_ne t2 t1 b (mapSet t1 a room.viewers) hne]
  exact mapGet_set_self t1 a room.viewers

/-- C7 amended witness: tokens "aaa" and "bbb" drawn for connections 1 and 2
joining room "100000". -/
theorem viewerIds_distinct_witness :
    ∃ room2, mapGet "100000" (ServerState.mk
        [("100000", ⟨0, [("aaa", 1), ("bbb", 2)]⟩)]
        [(0, ⟨"broadcaster", "100000", none⟩), (1, ⟨"viewer", "100000", some "aaa"⟩),
         (2, ⟨"viewer", "100000", some "bbb"⟩)]).rooms = some room2 ∧
      mapGet "aaa" room2.viewers = some 1 ∧ mapGet "bbb" room2.viewers = some 2 ∧
      ((1 : ConnId), ServerMsg.joinedRoom "100000" "aaa") ∈
        [((1 : ConnId), ServerMsg.joinedRoom "100000" "aaa"),
         ((0 : ConnId), ServerMsg.viewerConnect "aaa")] ∧
      ((2 : ConnId), ServerMsg.joinedRoom "100000" "bbb") ∈
        [((2 : ConnId), ServerMsg.joinedRoom "100000" "bbb"),
         ((0 : ConnId), ServerMsg.viewerConnect "bbb")] :=
  viewerIds_distinct (fun _ => true) (fun _ => true) (fun _ => 0) (fun _ => 0) 1 1
    "aaa" "bbb"
    ⟨[("100000", ⟨0, []⟩)], [(0, ⟨"broadcaster", "100000", none⟩)]⟩
    ⟨[("100000", ⟨0, [("aaa", 1)]⟩)],
     [(0, ⟨"broadcaster", "100000", none⟩), (1, ⟨"viewer", "100000", some "aaa"⟩)]⟩
    ⟨[("100000", ⟨0, [("aaa", 1), ("bbb", 2)]⟩)],
     [(0, ⟨"broadcaster", "100000", none⟩), (1, ⟨"viewer", "100000", some "aaa"⟩),
      (2, ⟨"viewer", "100000", some "bbb"⟩)]⟩
    [(1, ServerMsg.joinedRoom "100000" "aaa"), (0, ServerMsg.viewerConnect "aaa")]
    [(2, ServerMsg.joinedRoom "100000" "bbb"), (0, ServerMsg.viewerConnect "bbb")]
    1 2 "100000" ⟨0, []⟩ (by decide) (by rfl) (by rfl) (by rfl)

end ChinShare

namespace ChinShare

/-- Helper: no `room-closed` copy targets a connection absent from the
viewer list. -/
theorem countMsg_roomClosed_zero (isOpen : ConnId → Bool) (c : ConnId)
    (l : List (String × ConnId)) (h : c ∉ l.map Prod.snd) :
    countMsg (c, ServerMsg.roomClosed)
      ((l.filter (fun p => isOpen p.2)).map (fun p => (p.2, ServerMsg.roomClosed))) = 0 := by
  induction l with
  | nil => rfl
  | cons p rest ih =>
    obtain ⟨v2, c2⟩ := p
    simp only [List.map_cons, List.mem_cons] at h
    push_neg at h
    obtain ⟨hne, hrest⟩ := h
    by_cases ho : isOpen c2
    · rw [List.filter_cons_of_pos (by simpa using ho), List.map_cons]
      simp only [countMsg, Prod.mk.injEq]
      rw [ih hrest]
      simp [Ne.symm hne]
    · rw [List.filter_cons_of_neg (by simpa using ho)]
      exact ih hrest

/-- Helper: a viewer listed under connection `c` receives `room-closed`
exactly once if `c` is open and not at all otherwise, provided viewer
connections are pairwise distinct. -/
theorem countMsg_roomClosed_one (isOpen : ConnId → Bool) (v : String) (c : ConnId)
    (l : List (String × ConnId)) (hnd : (l.map Prod.snd).Nodup) (hm : (v, c) ∈ l) :
    countMsg (c, ServerMsg.roomClosed)
      ((l.filter (fun p => isOpen p.2)).map (fun p => (p.2, ServerMsg.roomClosed))) =
      if isOpen c then 1 else 0 := by
  induction l with
  | nil => cases hm
  | cons p rest ih =>
    obtain ⟨v2, c2⟩ := p
    simp only [List.map_cons, List.nodup_cons] at hnd
    obtain ⟨hc2, hndr⟩ := hnd
    rcases List.mem_cons.mp hm with heq | hmr
    · injection heq with hv hc
      subst hv
      subst hc
      by_cases ho : isOpen c
      · rw [List.filter_cons_of_pos (by simpa using ho), List.map_cons]
        simp only [countMsg, if_pos rfl, ho, if_true]
        rw [countMsg_roomClosed_zero isOpen c rest hc2]
      · rw [List.filter_cons_of_neg (by simpa using ho)]
        rw [countMsg_roomClosed_zero isOpen c rest hc2]
        simp [ho]
    · have hcm : c ∈ rest.map Prod.snd := List.mem_map.mpr ⟨(v, c), hmr, rfl⟩
      have hne : c2 ≠ c := fun hcc => hc2 (hcc ▸ hcm)
      by_cases ho : isOpen c2
      · rw [List.filter_cons_of_pos (by simpa using ho), List.map_cons]
        simp only [countMsg, Prod.mk.injEq, hne, false_and, if_false]
        rw [ih hndr hmr]
        exact Nat.zero_add _
      · rw [List.filter_cons_of_neg (by simpa using ho)]
        exact ih hndr hmr

/-- C2: closing a broadcaster connection removes its session, destroys its
room, and sends `room-closed` exactly once to each registered viewer whose
connection is still open (closed viewers receive nothing, and every sent
message is such a `room-closed` to an open registered viewer); a subsequent
`join-room` naming the destroyed code draws an `error` reply with no state
change. -/
theorem broadcasterClose_spec (isOpen : ConnId → Bool) (st : ServerState) (ws : ConnId)
    (R : String) (sid : Option String) (room : Room)
    (hs : mapGet ws st.sessions = some ⟨"broadcaster", R, sid⟩)
    (hR : R ≠ "")
    (hr : mapGet R st.rooms = some room)
    (hnd : (room.viewers.map Prod.snd).Nodup) :
    (handleClose isOpen st ws).1.sessions = mapDelete ws st.sessions ∧
    mapGet ws (handleClose isOpen st ws).1.sessions = none ∧
    mapGet R (handleClose isOpen st ws).1.rooms = none ∧
    (∀ v c, (v, c) ∈ room.viewers →
      countMsg (c, ServerMsg.roomClosed) (handleClose isOpen st ws).2 =
        if isOpen c then 1 else 0) ∧
    (∀ c m2, (c, m2) ∈ (handleClose isOpen st ws).2 →
      m2 = ServerMsg.roomClosed ∧ isOpen c = true ∧ ∃ v, (v, c) ∈ room.viewers) ∧
    (∀ (isOpen2 : ConnId → Bool) (rand : Nat → Nat) (fuel : Nat) (vtok : String)
        (ws2 : ConnId),
      handleMessage isOpen2 rand fuel vtok (handleClose isOpen st ws).1 ws2
          (some (ClientMsg.joinRoom (some R))) =
        some ((handleClose isOpen st ws).1, [(ws2, ServerMsg.errorMsg "Room not found")])) := by
  have hcl : handleClose isOpen st ws =
      (⟨mapDelete R st.rooms, mapDelete ws st.sessions⟩,
       (room.viewers.filter (fun p => isOpen p.2)).map
         (fun p => (p.2, ServerMsg.roomClosed))) := by
    simp [handleClose, hs, hR, hr]
  rw [hcl]
  refine ⟨rfl, mapGet_delete_self ws st.sessions, mapGet_delete_self R st.rooms,
    ?_, ?_, ?_⟩
  · intro v c hm
    exact countMsg_roomClosed_one isOpen v c room.viewers hnd hm
  · intro c m2 hm
    simp only [List.mem_map, List.mem_filter] at hm
    obtain ⟨⟨v, c2⟩, ⟨hmem, hopen⟩, heq⟩ := hm
    injection heq with hc hm2
    subst hc
    exact ⟨hm2.symm, by simpa using hopen, v, hmem⟩
  · intro isOpen2 rand fuel vtok ws2
    simp only [handleMessage, mapGet_delete_self]

/-- C2 witness: broadcaster 0 of room "100000" with viewers A (connection 1,
open) and B (connection 2, closed) disconnects. -/
theorem broadcasterClose_spec_witness :
    (handleClose (fun c => c != 2)
        ⟨[("100000", ⟨0, [("A", 1), ("B", 2)]⟩)],
         [(0, ⟨"broadcaster", "100000", none⟩), (1, ⟨"viewer", "100000", some "A"⟩),
          (2, ⟨"viewer", "100000", some "B"⟩)]⟩ 0).1.sessions =
      mapDelete 0 [(0, ⟨"broadcaster", "100000", none⟩), (1, ⟨"viewer", "100000", some "A"⟩),
        (2, ⟨"viewer", "100000", some "B"⟩)] ∧
    mapGet 0 (handleClose (fun c => c != 2)
        ⟨[("100000", ⟨0, [("A", 1), ("B", 2)]⟩)],
         [(0, ⟨"broadcaster", "100000", none⟩), (1, ⟨"viewer", "100000", some "A"⟩),
          (2, ⟨"viewer", "100000", some "B"⟩)]⟩ 0).1.sessions = none ∧
    mapGet "100000" (handleClose (fun c => c != 2)
        ⟨[("100000", ⟨0, [("A", 1), ("B", 2)]⟩)],
         [(0, ⟨"broadcaster", "100000", none⟩), (1, ⟨"viewer", "100000", some "A"⟩),
          (2, ⟨"viewer", "100000", some "B"⟩)]⟩ 0).1.rooms = none ∧
    (∀ v c, (v, c) ∈ (Room.mk 0 [("A", 1), ("B", 2)]).viewers →
      countMsg (c, ServerMsg.roomClosed) (handleClose (fun c => c != 2)
        ⟨[("100000", ⟨0, [("A", 1), ("B", 2)]⟩)],
         [(0, ⟨"broadcaster", "100000", none⟩), (1, ⟨"viewer", "100000", some "A"⟩),
          (2, ⟨"viewer", "100000", some "B"⟩)]⟩ 0).2 =
        if c != 2 then 1 else 0) ∧
    (∀ c m2, (c, m2) ∈ (handleClose (fun c => c != 2)
        ⟨[("100000", ⟨0, [("A", 1), ("B", 2)]⟩)],
         [(0, ⟨"broadcaster", "100000", none⟩), (1, ⟨"viewer", "100000", some "A"⟩),
          (2, ⟨"viewer", "100000", some "B"⟩)]⟩ 0).2 →
      m2 = ServerMsg.roomClosed ∧ (c != 2) = true ∧
        ∃ v, (v, c) ∈ (Room.mk 0 [("A", 1), ("B", 2)]).viewers) ∧
    (∀ (isOpen2 : ConnId → Bool) (rand : Nat → Nat) (fuel : Nat) (vtok : String)
        (ws2 : ConnId),
      handleMessage isOpen2 rand fuel vtok (handleClose (fun c => c != 2)
          ⟨[("100000", ⟨0, [("A", 1), ("B", 2)]⟩)],
           [(0, ⟨"broadcaster", "100000", none⟩), (1, ⟨"viewer", "100000", some "A"⟩),
            (2, ⟨"viewer", "100000", some "B"⟩)]⟩ 0).1 ws2
          (some (ClientMsg.joinRoom (some "100000"))) =
        some ((handleClose (fun c => c != 2)
          ⟨[("100000", ⟨0, [("A", 1), ("B", 2)]⟩)],
           [(0, ⟨"broadcaster", "100000", none⟩), (1, ⟨"viewer", "100000", some "A"⟩),
            (2, ⟨"viewer", "100000", some "B"⟩)]⟩ 0).1,
          [(ws2, ServerMsg.errorMsg "Room not found")])) :=
  broadcasterClose_spec (fun c => c != 2)
    ⟨[("100000", ⟨0, [("A", 1), ("B", 2)]⟩)],
     [(0, ⟨"broadcaster", "100000", none⟩), (1, ⟨"viewer", "100000", some "A"⟩),
      (2, ⟨"viewer", "100000", some "B"⟩)]⟩ 0 "100000" none ⟨0, [("A", 1), ("B", 2)]⟩
    (by rfl) (by decide) (by rfl) (by decide)

/-- C8: closing a viewer connection whose session names viewer id `A` in an
existing room `R` (with `A` registered there) deletes only that session,
removes only `A`'s entry from `R`'s viewer map, sends exactly one
`viewer-disconnect{id: A}` to `R`'s broadcaster precisely when that
connection is open, and leaves every other session, viewer entry, and room
unchanged. -/
theorem viewerClose_spec (isOpen : ConnId → Bool) (st : ServerState) (ws vc : ConnId)
    (R A : String) (room : Room)
    (hs : mapGet ws st.sessions = some ⟨"viewer", R, some A⟩)
    (hR : R ≠ "") (hA : A ≠ "")
    (hr : mapGet R st.rooms = some room)
    (hv : mapGet A room.viewers = some vc) :
    (handleClose isOpen st ws).1.sessions = mapDelete ws st.sessions ∧
    mapGet ws (handleClose isOpen st ws).1.sessions = none ∧
    (∀ c, c ≠ ws → mapGet c (handleClose isOpen st ws).1.sessions = mapGet c st.sessions) ∧
    mapGet R (handleClose isOpen st ws).1.rooms =
      some ⟨room.broadcaster, mapDelete A room.viewers⟩ ∧
    (∀ v, v ≠ A → mapGet v (mapDelete A room.viewers) = mapGet v room.viewers) ∧
    (∀ R2, R2 ≠ R → mapGet R2 (handleClose isOpen st ws).1.rooms = mapGet R2 st.rooms) ∧
    (handleClose isOpen st ws).2 =
      (if isOpen room.broadcaster then [(room.broadcaster, ServerMsg.viewerDisconnect A)]
       else []) := by
  have hhas : mapHas A room.viewers = true := by rw [mapHas, hv]; rfl
  have hcl : handleClose isOpen st ws =
      (⟨mapSet R ⟨room.broadcaster, mapDelete A room.viewers⟩ st.rooms,
        mapDelete ws st.sessions⟩,
       if isOpen room.broadcaster then [(room.broadcaster, ServerMsg.viewerDisconnect A)]
       else []) := by
    simp [handleClose, hs, hR, hr, hA, hhas]
  rw [hcl]
  exact ⟨rfl, mapGet_delete_self ws st.sessions,
    fun c hc => mapGet_delete_ne ws c st.sessions hc,
    mapGet_set_self R ⟨room.broadcaster, mapDelete A room.viewers⟩ st.rooms,
    fun v hvne => mapGet_delete_ne A v room.viewers hvne,
    fun R2 hR2 => mapGet_set_ne R R2 ⟨room.broadcaster, mapDelete A room.viewers⟩ st.rooms hR2,
    rfl⟩

/-- C8 witness: viewer A (connection 1) of room "100000" disconnects while
the broadcaster (connection 0) is open and viewer B (connection 2) stays. -/
theorem viewerClose_spec_witness :
    (handleClose (fun _ => true)
        ⟨[("100000", ⟨0, [("A", 1), ("B", 2)]⟩)],
         [(0, ⟨"broadcaster", "100000", none⟩), (1, ⟨"viewer", "100000", some "A"⟩),
          (2, ⟨"viewer", "100000", some "B"⟩)]⟩ 1).1.sessions =
      mapDelete 1 [(0, ⟨"broadcaster", "100000", none⟩), (1, ⟨"viewer", "100000", some "A"⟩),
        (2, ⟨"viewer", "100000", some "B"⟩)] ∧
    mapGet 1 (handleClose (fun _ => true)
        ⟨[("100000", ⟨0, [("A", 1), ("B", 2)]⟩)],
         [(0, ⟨"broadcaster", "100000", none⟩), (1, ⟨"viewer", "100000", some "A"⟩),
          (2, ⟨"viewer", "100000", some "B"⟩)]⟩ 1).1.sessions = none ∧
    (∀ c, c ≠ 1 → mapGet c (handleClose (fun _ => true)
        ⟨[("100000", ⟨0, [("A", 1), ("B", 2)]⟩)],
         [(0, ⟨"broadcaster", "100000", none⟩), (1, ⟨"viewer", "100000", some "A"⟩),
          (2, ⟨"viewer", "100000", some "B"⟩)]⟩ 1).1.sessions =
      mapGet c [(0, ⟨"broadcaster", "100000", none⟩), (1, ⟨"viewer", "100000", some "A"⟩),
        (2, ⟨"viewer", "100000", some "B"⟩)]) ∧
    mapGet "100000" (handleClose (fun _ => true)
        ⟨[("100000", ⟨0, [("A", 1), ("B", 2)]⟩)],
         [(0, ⟨"broadcaster", "100000", none⟩), (1, ⟨"viewer", "100000", some "A"⟩),
          (2, ⟨"viewer", "100000", some "B"⟩)]⟩ 1).1.rooms =
      some ⟨0, mapDelete "A" [("A", 1), ("B", 2)]⟩ ∧
    (∀ v, v ≠ "A" → mapGet v (mapDelete "A" [("A", (1 : ConnId)), ("B", 2)]) =
      mapGet v [("A", (1 : ConnId)), ("B", 2)]) ∧
    (∀ R2, R2 ≠ "100000" → mapGet R2 (handleClose (fun _ => true)
        ⟨[("100000", ⟨0, [("A", 1), ("B", 2)]⟩)],
         [(0, ⟨"broadcaster", "100000", none⟩), (1, ⟨"viewer", "100000", some "A"⟩),
          (2, ⟨"viewer", "100000", some "B"⟩)]⟩ 1).1.rooms =
      mapGet R2 [("100000", Room.mk 0 [("A", 1), ("B", 2)])]) ∧
    (handleClose (fun _ => true)
        ⟨[("100000", ⟨0, [("A", 1), ("B", 2)]⟩)],
         [(0, ⟨"broadcaster", "100000", none⟩), (1, ⟨"viewer", "100000", some "A"⟩),
          (2, ⟨"viewer", "100000", some "B"⟩)]⟩ 1).2 =
      (if true then [((0 : ConnId), ServerMsg.viewerDisconnect "A")] else []) :=
  viewerClose_spec (fun _ => true)
    ⟨[("100000", ⟨0, [("A", 1), ("B", 2)]⟩)],
     [(0, ⟨"broadcaster", "100000", none⟩), (1, ⟨"viewer", "100000", some "A"⟩),
      (2, ⟨"viewer", "100000", some "B"⟩)]⟩ 1 1 "100000" "A" ⟨0, [("A", 1), ("B", 2)]⟩
    (by rfl) (by decide) (by decide) (by rfl) (by rfl)

end ChinShare
